import Mathlib

/-!
Shallow embedding of the smooth-scrolling engine of this repository.

The repository ships two script variants: `src/smoothscrolling.js`
(v1, "Universal Smooth Scroll v1.0") and `src/unnamed/part_000`
(v2, "Universal Smooth Scroll v2.0").  The two share their numeric core
verbatim: `clamp`, `lerp`, `round2`, `updateBounds`, the animation step
on `currentY`/`rafId`, and the wheel / touch / inertia handlers.  They
differ in the keyboard handler, in whether the instant (non-smooth)
scroll path dispatches a scroll event, and in the presence of a
`window.scrollBy` override (v2 only).  JavaScript numbers are modelled
as rationals; `requestAnimationFrame` handles are modelled as Booleans
recording that a callback is outstanding (`rafId` for the animation
loop, `inertiaActive` for the self-rescheduling inertia callback).
Definitions below follow v2 unless suffixed `V1`.
-/

namespace SmoothScroll

/-- Configuration record (the numeric fields shared by both variants,
declared at the top of each script). -/
structure Config where
  smoothFactor : ℚ
  touchSensitivity : ℚ
  inertiaMultiplier : ℚ
  inertiaDecay : ℚ

/-- Default configuration of both variants: smoothFactor 0.08,
touchSensitivity 0.3, inertiaMultiplier 4, inertiaDecay 0.85. -/
def defaultConfig : Config :=
  { smoothFactor := 2/25, touchSensitivity := 3/10
    inertiaMultiplier := 4, inertiaDecay := 17/20 }

/-- Full mutable state of the scroller.  `targetY`, `currentY`,
`maxScroll` are the script's state variables; `rafId` is the truthiness
of the script's `rafId` variable (the stored frame handle), while
`animFramePending` records whether an animation-loop callback is
actually outstanding with the scheduler — the two coincide in normal
operation but diverge after `cancelAnimationFrame`, which cancels the
callback without clearing the variable; `transform` is the translate offset
written to `scroller.style.transform`; `lastDispatchY` and
`notifications` model the scroll-event dispatch bookkeeping
(`lastDispatchY` in v2, `lastScrollY` in v1); the touch fields mirror
the touch-handler locals; `inertiaActive` / `inertiaVelocity` model the
self-rescheduling `applyInertia` closure; the Boolean flags at the end
record which listeners / overrides / DOM nodes are currently
installed. -/
structure ScrollState where
  targetY : ℚ
  currentY : ℚ
  maxScroll : ℚ
  rafId : Bool
  animFramePending : Bool
  isAnimating : Bool
  transform : ℚ
  lastDispatchY : ℚ
  notifications : ℕ
  isTouchDown : Bool
  lastTouchY : ℚ
  touchVelocity : ℚ
  lastTouchTime : ℚ
  inertiaActive : Bool
  inertiaVelocity : ℚ
  listenersAttached : Bool
  scrollToOverridden : Bool
  scrollByOverridden : Bool
  containerInDom : Bool
  config : Config

/-- Source: `const clamp = (v, min, max) => Math.max(min, Math.min(max, v))`
(identical in both variants). -/
def clamp (v lo hi : ℚ) : ℚ := max lo (min hi v)

/-- Source: `const lerp = (a, b, factor) => a + (b - a) * factor`. -/
def lerp (a b factor : ℚ) : ℚ := a + (b - a) * factor

/-- Source: `const round2 = v => Math.round(v * 100) / 100`; JavaScript
`Math.round` is floor of the argument plus one half, which is Mathlib's
`round`. -/
def round2 (v : ℚ) : ℚ := ((round (v * 100) : ℤ) : ℚ) / 100

/-- Source: `dispatchScrollEvent` (v2) / the event-dispatch part of
`updateScrollPosition` (v1): dispatches a scroll event and redefines the
scroll-position query properties.  Modelled as incrementing a
notification counter. -/
def dispatchScrollEvent (s : ScrollState) : ScrollState :=
  { s with notifications := s.notifications + 1 }

/-- Source: `updateBounds` (identical in both variants):
`maxScroll = Math.max(0, scroller.scrollHeight - window.innerHeight)`
followed by re-clamping `targetY` and `currentY`. -/
def updateBounds (scrollHeight innerHeight : ℚ) (s : ScrollState) : ScrollState :=
  { s with maxScroll := max 0 (scrollHeight - innerHeight)
           targetY := clamp s.targetY 0 (max 0 (scrollHeight - innerHeight))
           currentY := clamp s.currentY 0 (max 0 (scrollHeight - innerHeight)) }

/-- Source: `startAnimation` (identical in both variants): schedules an
animation frame only when no handle is pending
(`if (!rafId) rafId = requestAnimationFrame(animate)`). -/
def startAnimation (s : ScrollState) : ScrollState :=
  if s.rafId then s else { s with rafId := true, animFramePending := true }

/-- Source: `animate` (v2 lines 164-192; v1 is identical on `currentY`,
`rafId` and the transform, differing only in the dispatch thresholds).
One firing of the scheduled frame callback: if the distance from
`currentY` to `targetY` exceeds 0.5, interpolate, apply the transform,
dispatch if displacement since the last dispatch exceeds 1, and
reschedule; otherwise snap to the target, apply the final transform,
dispatch on any residual displacement, and stop (no frame pending). -/
def animate (s : ScrollState) : ScrollState :=
  if 1/2 < |s.targetY - s.currentY| then
    if 1 < |lerp s.currentY s.targetY s.config.smoothFactor - s.lastDispatchY| then
      { s with currentY := lerp s.currentY s.targetY s.config.smoothFactor
               transform := round2 (lerp s.currentY s.targetY s.config.smoothFactor)
               notifications := s.notifications + 1
               lastDispatchY := lerp s.currentY s.targetY s.config.smoothFactor
               rafId := true, animFramePending := true, isAnimating := true }
    else
      { s with currentY := lerp s.currentY s.targetY s.config.smoothFactor
               transform := round2 (lerp s.currentY s.targetY s.config.smoothFactor)
               rafId := true, animFramePending := true, isAnimating := true }
  else
    if 0 < |s.targetY - s.lastDispatchY| then
      { s with currentY := s.targetY, transform := round2 s.targetY
               notifications := s.notifications + 1, lastDispatchY := s.targetY
               rafId := false, animFramePending := false, isAnimating := false }
    else
      { s with currentY := s.targetY, transform := round2 s.targetY
               rafId := false, animFramePending := false, isAnimating := false }

/-- Iterated firing of the animation-frame callback. -/
def animateN : ℕ → ScrollState → ScrollState
  | 0, s => s
  | n + 1, s => animate (animateN n s)

/-- Source: `onWheel` (identical in both variants): add the wheel delta
to the target, clamp, ensure the loop is running. -/
def onWheel (deltaY : ℚ) (s : ScrollState) : ScrollState :=
  startAnimation { s with targetY := clamp (s.targetY + deltaY) 0 s.maxScroll }

/-- Source: `onTouchStart` (identical in both variants). -/
def onTouchStart (clientY now : ℚ) (s : ScrollState) : ScrollState :=
  { s with isTouchDown := true, lastTouchY := clientY
           lastTouchTime := now, touchVelocity := 0 }

/-- Source: `onTouchMove` (identical in both variants):
`delta = lastTouchY - y`, `dt = now - lastTouchTime || 16` (a zero time
delta falls back to 16), velocity normalised to a 16ms frame, target
moved by `delta * touchSensitivity` and clamped. -/
def onTouchMove (clientY now : ℚ) (s : ScrollState) : ScrollState :=
  if s.isTouchDown then
    startAnimation
      { s with touchVelocity :=
                 (s.lastTouchY - clientY)
                   / (if now - s.lastTouchTime = 0 then 16 else now - s.lastTouchTime) * 16
               lastTouchY := clientY, lastTouchTime := now
               targetY := clamp (s.targetY + (s.lastTouchY - clientY) * s.config.touchSensitivity)
                 0 s.maxScroll }
  else s

/-- Source: `onTouchEnd` (identical in both variants): if the recorded
touch velocity exceeds 0.2 in magnitude, initialise the inertia run
working velocity to `touchVelocity * inertiaMultiplier` and schedule the
first `applyInertia` frame. -/
def onTouchEnd (s : ScrollState) : ScrollState :=
  if 1/5 < |s.touchVelocity| then
    { s with isTouchDown := false, inertiaActive := true
             inertiaVelocity := s.touchVelocity * s.config.inertiaMultiplier }
  else
    { s with isTouchDown := false }

/-- Source: the `applyInertia` closure (identical in both variants); one
firing of its frame callback: decay the working velocity, add it to the
target, clamp, ensure the animation loop is running, and reschedule
itself (directly through `requestAnimationFrame`, not through
`startAnimation`) exactly when the decayed velocity still exceeds 0.5 in
magnitude. -/
def applyInertia (s : ScrollState) : ScrollState :=
  { startAnimation
      { s with inertiaVelocity := s.inertiaVelocity * s.config.inertiaDecay
               targetY := clamp (s.targetY + s.inertiaVelocity * s.config.inertiaDecay)
                 0 s.maxScroll }
    with inertiaActive :=
           if 1/2 < |s.inertiaVelocity * s.config.inertiaDecay| then true else false }

/-- One tick of the scheduler delivering the inertia callback: it runs
only when such a callback is outstanding. -/
def fireInertiaFrame (s : ScrollState) : ScrollState :=
  if s.inertiaActive then applyInertia s else s

/-- Iterated delivery of inertia frames. -/
def inertiaRunN : ℕ → ScrollState → ScrollState
  | 0, s => s
  | n + 1, s => fireInertiaFrame (inertiaRunN n s)

/-- One tick of the scheduler delivering the animation-loop callback:
it runs only when such a callback is actually outstanding. -/
def fireAnimationFrame (s : ScrollState) : ScrollState :=
  if s.animFramePending then animate s else s

/-- Keys distinguished by the keyboard handlers; `other` stands for any
key not named in either switch statement. -/
inductive Key where
  | arrowDown
  | arrowUp
  | pageDown
  | pageUp
  | home
  | keyEnd
  | space
  | other

/-- Source: `onKeyDown` of v2 (part_000 lines 261-309): ignore the event
when focus is in a text input, otherwise step the target per key
(arrows by 40, page keys and space by 80 percent of the viewport
height, home and end to the extremes), and call `preventDefault` plus
`startAnimation` exactly when a recognised key was handled.  Returns the
new state together with whether the native action was suppressed. -/
def onKeyDown (innerHeight : ℚ) (k : Key) (shiftKey inTextInput : Bool)
    (s : ScrollState) : ScrollState × Bool :=
  if inTextInput then (s, false)
  else
    let step := innerHeight * (4/5)
    match k with
    | .arrowDown =>
        (startAnimation { s with targetY := clamp (s.targetY + 40) 0 s.maxScroll }, true)
    | .arrowUp =>
        (startAnimation { s with targetY := clamp (s.targetY - 40) 0 s.maxScroll }, true)
    | .pageDown =>
        (startAnimation { s with targetY := clamp (s.targetY + step) 0 s.maxScroll }, true)
    | .pageUp =>
        (startAnimation { s with targetY := clamp (s.targetY - step) 0 s.maxScroll }, true)
    | .home =>
        (startAnimation { s with targetY := 0 }, true)
    | .keyEnd =>
        (startAnimation { s with targetY := s.maxScroll }, true)
    | .space =>
        (startAnimation
          { s with targetY := clamp (s.targetY + (if shiftKey then -step else step)) 0 s.maxScroll }, true)
    | .other => (s, false)

/-- Source: `onKeyDown` of v1 (smoothscrolling.js lines 236-272): no
text-input guard; ArrowDown shares the PageDown case and ArrowUp the
PageUp case (both step by 80 percent of the viewport height);
`preventDefault` is called inside each recognised case. -/
def onKeyDownV1 (innerHeight : ℚ) (k : Key) (shiftKey : Bool)
    (s : ScrollState) : ScrollState × Bool :=
  let step := innerHeight * (4/5)
  match k with
  | .arrowDown | .pageDown =>
      (startAnimation { s with targetY := clamp (s.targetY + step) 0 s.maxScroll }, true)
  | .arrowUp | .pageUp =>
      (startAnimation { s with targetY := clamp (s.targetY - step) 0 s.maxScroll }, true)
  | .home =>
      (startAnimation { s with targetY := 0 }, true)
  | .keyEnd =>
      (startAnimation { s with targetY := s.maxScroll }, true)
  | .space =>
      (startAnimation
        { s with targetY := clamp (s.targetY + (if shiftKey then -step else step)) 0 s.maxScroll }, true)
  | .other => (s, false)

/-- Source: `SmoothScroll.scrollTo` of v2 (part_000 lines 367-376): clamp
the requested offset into the target; smooth requests start the loop;
instant requests set `currentY` to the target, apply the transform and
call `dispatchScrollEvent` immediately. -/
def scrollToAPI (y : ℚ) (smooth : Bool) (s : ScrollState) : ScrollState :=
  if smooth then startAnimation { s with targetY := clamp y 0 s.maxScroll }
  else
    dispatchScrollEvent
      { s with targetY := clamp y 0 s.maxScroll, currentY := clamp y 0 s.maxScroll
               transform := round2 (clamp y 0 s.maxScroll) }

/-- Source: `SmoothScroll.scrollBy` of v2 (part_000 lines 377-386): same
as `scrollToAPI` but relative to the current target. -/
def scrollByAPI (deltaY : ℚ) (smooth : Bool) (s : ScrollState) : ScrollState :=
  if smooth then startAnimation { s with targetY := clamp (s.targetY + deltaY) 0 s.maxScroll }
  else
    dispatchScrollEvent
      { s with targetY := clamp (s.targetY + deltaY) 0 s.maxScroll
               currentY := clamp (s.targetY + deltaY) 0 s.maxScroll
               transform := round2 (clamp (s.targetY + deltaY) 0 s.maxScroll) }

/-- Source: `SmoothScroll.scrollTo` of v1 (smoothscrolling.js lines
306-314): identical to the v2 version except that the instant branch
only sets `currentY` and the transform; it dispatches no scroll
event. -/
def scrollToV1 (y : ℚ) (smooth : Bool) (s : ScrollState) : ScrollState :=
  if smooth then startAnimation { s with targetY := clamp y 0 s.maxScroll }
  else
    { s with targetY := clamp y 0 s.maxScroll, currentY := clamp y 0 s.maxScroll
             transform := round2 (clamp y 0 s.maxScroll) }

/-- JavaScript truthiness fallback `a || k` for an optional numeric
field: an absent field and the number 0 both fall through. -/
def jsOr (a : Option ℚ) (k : ℚ) : ℚ :=
  match a with
  | some x => if x = 0 then k else x
  | none => k

/-- Source: the object-form branch of the overridden `window.scrollTo`
of v2 (part_000 lines 330-339): target from `top || y || 0` clamped;
`behavior: "smooth"` starts the loop, anything else snaps `currentY`,
applies the transform and dispatches. -/
def windowScrollToOpts (top y : Option ℚ) (behaviorSmooth : Bool)
    (s : ScrollState) : ScrollState :=
  if behaviorSmooth then
    startAnimation { s with targetY := clamp (jsOr top (jsOr y 0)) 0 s.maxScroll }
  else
    dispatchScrollEvent
      { s with targetY := clamp (jsOr top (jsOr y 0)) 0 s.maxScroll
               currentY := clamp (jsOr top (jsOr y 0)) 0 s.maxScroll
               transform := round2 (clamp (jsOr top (jsOr y 0)) 0 s.maxScroll) }

/-- Source: the object-form branch of the overridden `window.scrollTo`
of v1 (smoothscrolling.js lines 290-297): like the v2 version but the
instant branch dispatches nothing. -/
def windowScrollToOptsV1 (top y : Option ℚ) (behaviorSmooth : Bool)
    (s : ScrollState) : ScrollState :=
  if behaviorSmooth then
    startAnimation { s with targetY := clamp (jsOr top (jsOr y 0)) 0 s.maxScroll }
  else
    { s with targetY := clamp (jsOr top (jsOr y 0)) 0 s.maxScroll
             currentY := clamp (jsOr top (jsOr y 0)) 0 s.maxScroll
             transform := round2 (clamp (jsOr top (jsOr y 0)) 0 s.maxScroll) }

/-- Source: the numeric branch of the overridden `window.scrollTo` of v2
(part_000 lines 340-343): clamp `y` (defaulting a non-number to 0) and
start the loop. -/
def windowScrollToNum (y : Option ℚ) (s : ScrollState) : ScrollState :=
  startAnimation { s with targetY := clamp (y.getD 0) 0 s.maxScroll }

/-- Source: the object-form branch of the overridden `window.scrollBy`
of v2 (part_000 lines 348-357): relative version of
`windowScrollToOpts`. -/
def windowScrollByOpts (top y : Option ℚ) (behaviorSmooth : Bool)
    (s : ScrollState) : ScrollState :=
  if behaviorSmooth then
    startAnimation { s with targetY := clamp (s.targetY + jsOr top (jsOr y 0)) 0 s.maxScroll }
  else
    dispatchScrollEvent
      { s with targetY := clamp (s.targetY + jsOr top (jsOr y 0)) 0 s.maxScroll
               currentY := clamp (s.targetY + jsOr top (jsOr y 0)) 0 s.maxScroll
               transform := round2 (clamp (s.targetY + jsOr top (jsOr y 0)) 0 s.maxScroll) }

/-- Source: the numeric branch of the overridden `window.scrollBy` of v2
(part_000 lines 358-362). -/
def windowScrollByNum (y : Option ℚ) (s : ScrollState) : ScrollState :=
  startAnimation { s with targetY := clamp (s.targetY + y.getD 0) 0 s.maxScroll }

/-- Partial configuration record passed to `setConfig`; an absent field
is a property not present on the argument object. -/
structure ConfigPatch where
  smoothFactor : Option ℚ
  touchSensitivity : Option ℚ
  inertiaMultiplier : Option ℚ
  inertiaDecay : Option ℚ

/-- Source: `Object.assign(config, newConfig)`: every property present
on the patch overwrites the live configuration, every absent property is
left alone. -/
def objectAssign (c : Config) (p : ConfigPatch) : Config :=
  { smoothFactor := p.smoothFactor.getD c.smoothFactor
    touchSensitivity := p.touchSensitivity.getD c.touchSensitivity
    inertiaMultiplier := p.inertiaMultiplier.getD c.inertiaMultiplier
    inertiaDecay := p.inertiaDecay.getD c.inertiaDecay }

/-- Source: `SmoothScroll.setConfig` (identical in both variants). -/
def setConfig (p : ConfigPatch) (s : ScrollState) : ScrollState :=
  { s with config := objectAssign s.config p }

/-- Source: `SmoothScroll.destroy` of v2 (part_000 lines 397-415):
removes the five listeners, restores the original DOM structure,
restores `window.scrollTo` (the `window.scrollBy` override installed at
lines 347-363 is not touched), and cancels the pending animation-loop
callback (`if (rafId) cancelAnimationFrame(rafId)`) — without clearing
the `rafId` variable, which keeps its stale truthy value; the inertia
callback holds no cancellable handle, so `inertiaActive` is
untouched. -/
def destroy (s : ScrollState) : ScrollState :=
  { s with listenersAttached := false, containerInDom := false
           scrollToOverridden := false, animFramePending := false }

/-- Mutation entry points named by the specification: wheel, touch,
keyboard, the programmatic API, the overridden window entry points,
bounds recomputation, and the two kinds of scheduled frame callbacks. -/
inductive Event where
  | wheel (deltaY : ℚ)
  | touchStart (clientY now : ℚ)
  | touchMove (clientY now : ℚ)
  | touchEnd
  | keydown (innerHeight : ℚ) (k : Key) (shiftKey inTextInput : Bool)
  | apiScrollTo (y : ℚ) (smooth : Bool)
  | apiScrollBy (deltaY : ℚ) (smooth : Bool)
  | winScrollTo (top y : Option ℚ) (behaviorSmooth : Bool)
  | winScrollToNum (y : Option ℚ)
  | winScrollBy (top y : Option ℚ) (behaviorSmooth : Bool)
  | winScrollByNum (y : Option ℚ)
  | boundsUpdate (scrollHeight innerHeight : ℚ)
  | animationFrame
  | inertiaFrame

/-- Dispatch of one event to the v2 handlers. -/
def step : Event → ScrollState → ScrollState
  | .wheel d, s => onWheel d s
  | .touchStart y t, s => onTouchStart y t s
  | .touchMove y t, s => onTouchMove y t s
  | .touchEnd, s => onTouchEnd s
  | .keydown ih k sh ti, s => (onKeyDown ih k sh ti s).1
  | .apiScrollTo y sm, s => scrollToAPI y sm s
  | .apiScrollBy d sm, s => scrollByAPI d sm s
  | .winScrollTo t y b, s => windowScrollToOpts t y b s
  | .winScrollToNum y, s => windowScrollToNum y s
  | .winScrollBy t y b, s => windowScrollByOpts t y b s
  | .winScrollByNum y, s => windowScrollByNum y s
  | .boundsUpdate sh ih, s => updateBounds sh ih s
  | .animationFrame, s => fireAnimationFrame s
  | .inertiaFrame, s => fireInertiaFrame s

/-- Bounds invariant stated by the specification. -/
def Inv (s : ScrollState) : Prop :=
  0 ≤ s.maxScroll ∧ 0 ≤ s.targetY ∧ s.targetY ≤ s.maxScroll
    ∧ 0 ≤ s.currentY ∧ s.currentY ≤ s.maxScroll

/-- Number of outstanding frame callbacks: the animation-loop callback
plus the inertia callback. -/
def outstanding (s : ScrollState) : ℕ :=
  (if s.animFramePending then 1 else 0) + (if s.inertiaActive then 1 else 0)

/-- An idle post-initialisation state with the given scroll range: both
offsets at 0, no frame outstanding, default configuration, listeners and
overrides installed. -/
def initState (m : ℚ) : ScrollState :=
  { targetY := 0, currentY := 0, maxScroll := m
    rafId := false, animFramePending := false, isAnimating := false, transform := 0
    lastDispatchY := 0, notifications := 0
    isTouchDown := false, lastTouchY := 0, touchVelocity := 0, lastTouchTime := 0
    inertiaActive := false, inertiaVelocity := 0
    listenersAttached := true, scrollToOverridden := true
    scrollByOverridden := true, containerInDom := true
    config := defaultConfig }

/-! Helper lemmas. -/

lemma clamp_nonneg (v m : ℚ) : 0 ≤ clamp v 0 m := le_max_left _ _

lemma clamp_le_max (v m : ℚ) (h : 0 ≤ m) : clamp v 0 m ≤ m :=
  max_le h (min_le_left _ _)

lemma clamp_of_mem (v lo hi : ℚ) (h1 : lo ≤ v) (h2 : v ≤ hi) : clamp v lo hi = v := by
  unfold clamp
  rw [min_eq_right h2, max_eq_right h1]

@[simp] lemma startAnimation_targetY (s : ScrollState) :
    (startAnimation s).targetY = s.targetY := by
  unfold startAnimation; split <;> rfl

@[simp] lemma startAnimation_currentY (s : ScrollState) :
    (startAnimation s).currentY = s.currentY := by
  unfold startAnimation; split <;> rfl

@[simp] lemma startAnimation_maxScroll (s : ScrollState) :
    (startAnimation s).maxScroll = s.maxScroll := by
  unfold startAnimation; split <;> rfl

@[simp] lemma startAnimation_config (s : ScrollState) :
    (startAnimation s).config = s.config := by
  unfold startAnimation; split <;> rfl

@[simp] lemma startAnimation_notifications (s : ScrollState) :
    (startAnimation s).notifications = s.notifications := by
  unfold startAnimation; split <;> rfl

@[simp] lemma startAnimation_inertiaActive (s : ScrollState) :
    (startAnimation s).inertiaActive = s.inertiaActive := by
  unfold startAnimation; split <;> rfl

@[simp] lemma startAnimation_inertiaVelocity (s : ScrollState) :
    (startAnimation s).inertiaVelocity = s.inertiaVelocity := by
  unfold startAnimation; split <;> rfl

@[simp] lemma startAnimation_touchVelocity (s : ScrollState) :
    (startAnimation s).touchVelocity = s.touchVelocity := by
  unfold startAnimation; split <;> rfl

lemma animate_targetY (s : ScrollState) : (animate s).targetY = s.targetY := by
  unfold animate; split_ifs <;> rfl

lemma animate_maxScroll (s : ScrollState) : (animate s).maxScroll = s.maxScroll := by
  unfold animate; split_ifs <;> rfl

lemma animate_config (s : ScrollState) : (animate s).config = s.config := by
  unfold animate; split_ifs <;> rfl

lemma animate_snap (s : ScrollState) (h : ¬ (1/2 < |s.targetY - s.currentY|)) :
    (animate s).currentY = s.targetY ∧ (animate s).rafId = false := by
  unfold animate
  rw [if_neg h]
  split_ifs <;> exact ⟨rfl, rfl⟩

lemma animate_run (s : ScrollState) (h : 1/2 < |s.targetY - s.currentY|) :
    (animate s).currentY = lerp s.currentY s.targetY s.config.smoothFactor
      ∧ (animate s).rafId = true := by
  unfold animate
  rw [if_pos h]
  split_ifs <;> exact ⟨rfl, rfl⟩

lemma animate_diff_le (s : ScrollState) (_hf0 : 0 ≤ s.config.smoothFactor)
    (hf1 : s.config.smoothFactor ≤ 1) :
    |s.targetY - (animate s).currentY|
      ≤ |s.targetY - s.currentY| * (1 - s.config.smoothFactor) := by
  by_cases h : 1/2 < |s.targetY - s.currentY|
  · rw [(animate_run s h).1, lerp]
    have heq : s.targetY - (s.currentY + (s.targetY - s.currentY) * s.config.smoothFactor)
        = (s.targetY - s.currentY) * (1 - s.config.smoothFactor) := by ring
    rw [heq, abs_mul, abs_of_nonneg (by linarith : (0:ℚ) ≤ 1 - s.config.smoothFactor)]
  · rw [(animate_snap s h).1, sub_self, abs_zero]
    exact mul_nonneg (abs_nonneg _) (by linarith)

lemma animateN_targetY (n : ℕ) (s : ScrollState) : (animateN n s).targetY = s.targetY := by
  induction n with
  | zero => rfl
  | succ n ih => rw [animateN, animate_targetY, ih]

lemma animateN_config (n : ℕ) (s : ScrollState) : (animateN n s).config = s.config := by
  induction n with
  | zero => rfl
  | succ n ih => rw [animateN, animate_config, ih]

lemma animateN_diff_le (n : ℕ) (s : ScrollState) (hf0 : 0 ≤ s.config.smoothFactor)
    (hf1 : s.config.smoothFactor ≤ 1) :
    |s.targetY - (animateN n s).currentY|
      ≤ |s.targetY - s.currentY| * (1 - s.config.smoothFactor) ^ n := by
  induction n with
  | zero => simp [animateN]
  | succ n ih =>
      have hstep := animate_diff_le (animateN n s)
        (by rw [animateN_config]; exact hf0) (by rw [animateN_config]; exact hf1)
      rw [animateN_targetY, animateN_config] at hstep
      have hmul : |s.targetY - (animateN n s).currentY| * (1 - s.config.smoothFactor)
          ≤ |s.targetY - s.currentY| * (1 - s.config.smoothFactor) ^ n
            * (1 - s.config.smoothFactor) :=
        mul_le_mul_of_nonneg_right ih (by linarith)
      calc |s.targetY - (animateN (n + 1) s).currentY|
          ≤ |s.targetY - (animateN n s).currentY| * (1 - s.config.smoothFactor) := hstep
        _ ≤ |s.targetY - s.currentY| * (1 - s.config.smoothFactor) ^ n
              * (1 - s.config.smoothFactor) := hmul
        _ = |s.targetY - s.currentY| * (1 - s.config.smoothFactor) ^ (n + 1) := by ring

lemma animate_settles (s : ScrollState) (hf0 : 0 < s.config.smoothFactor)
    (hf1 : s.config.smoothFactor ≤ 1) :
    ∃ n, (animateN n s).rafId = false ∧ (animateN n s).currentY = s.targetY := by
  obtain ⟨n, hn⟩ := exists_pow_lt_of_lt_one
    (show (0:ℚ) < (1/2) / (|s.targetY - s.currentY| + 1) by positivity)
    (show 1 - s.config.smoothFactor < 1 by linarith)
  have hD : (0:ℚ) ≤ |s.targetY - s.currentY| := abs_nonneg _
  have hD1 : (0:ℚ) < |s.targetY - s.currentY| + 1 := by linarith
  have hdn := animateN_diff_le n s hf0.le hf1
  have hsmall : |s.targetY - (animateN n s).currentY| ≤ 1/2 := by
    have h1 : |s.targetY - s.currentY| * (1 - s.config.smoothFactor) ^ n
        ≤ |s.targetY - s.currentY| * ((1/2) / (|s.targetY - s.currentY| + 1)) :=
      mul_le_mul_of_nonneg_left hn.le hD
    have h2 : |s.targetY - s.currentY| * ((1/2) / (|s.targetY - s.currentY| + 1)) ≤ 1/2 := by
      rw [← mul_div_assoc, div_le_iff₀ hD1]
      linarith
    linarith
  have hcond : ¬ (1/2 < |(animateN n s).targetY - (animateN n s).currentY|) := by
    rw [animateN_targetY]
    exact not_lt.2 hsmall
  have hsnap := animate_snap (animateN n s) hcond
  exact ⟨n + 1, hsnap.2, by rw [animateN, hsnap.1, animateN_targetY]⟩

@[simp] lemma startAnimation_rafId (s : ScrollState) :
    (startAnimation s).rafId = true := by
  unfold startAnimation; split
  · assumption
  · rfl

@[simp] lemma applyInertia_maxScroll (s : ScrollState) :
    (applyInertia s).maxScroll = s.maxScroll := by
  simp [applyInertia]

@[simp] lemma applyInertia_targetY (s : ScrollState) :
    (applyInertia s).targetY
      = clamp (s.targetY + s.inertiaVelocity * s.config.inertiaDecay) 0 s.maxScroll := by
  simp [applyInertia]

@[simp] lemma applyInertia_currentY (s : ScrollState) :
    (applyInertia s).currentY = s.currentY := by
  simp [applyInertia]

@[simp] lemma applyInertia_config (s : ScrollState) :
    (applyInertia s).config = s.config := by
  simp [applyInertia]

@[simp] lemma applyInertia_inertiaVelocity (s : ScrollState) :
    (applyInertia s).inertiaVelocity = s.inertiaVelocity * s.config.inertiaDecay := by
  simp [applyInertia]

@[simp] lemma applyInertia_inertiaActive (s : ScrollState) :
    (applyInertia s).inertiaActive
      = if 1/2 < |s.inertiaVelocity * s.config.inertiaDecay| then true else false := by
  simp [applyInertia]

@[simp] lemma applyInertia_rafId (s : ScrollState) :
    (applyInertia s).rafId = true := by
  simp [applyInertia]

lemma Inv_animate (s : ScrollState) (hf0 : 0 ≤ s.config.smoothFactor)
    (hf1 : s.config.smoothFactor ≤ 1) (h : Inv s) : Inv (animate s) := by
  obtain ⟨h1, h2, h3, h4, h5⟩ := h
  by_cases hd : 1/2 < |s.targetY - s.currentY|
  · obtain ⟨hc, _⟩ := animate_run s hd
    refine ⟨?_, ?_, ?_, ?_, ?_⟩
    · rw [animate_maxScroll]; exact h1
    · rw [animate_targetY]; exact h2
    · rw [animate_targetY, animate_maxScroll]; exact h3
    · rw [hc, lerp]
      have hsplit : s.currentY + (s.targetY - s.currentY) * s.config.smoothFactor
          = s.currentY * (1 - s.config.smoothFactor)
            + s.targetY * s.config.smoothFactor := by ring
      rw [hsplit]
      exact add_nonneg (mul_nonneg h4 (by linarith)) (mul_nonneg h2 hf0)
    · rw [hc, lerp, animate_maxScroll]
      have hsplit : s.maxScroll
            - (s.currentY + (s.targetY - s.currentY) * s.config.smoothFactor)
          = (s.maxScroll - s.currentY) * (1 - s.config.smoothFactor)
            + (s.maxScroll - s.targetY) * s.config.smoothFactor := by ring
      have : 0 ≤ s.maxScroll
          - (s.currentY + (s.targetY - s.currentY) * s.config.smoothFactor) := by
        rw [hsplit]
        exact add_nonneg (mul_nonneg (by linarith) (by linarith))
          (mul_nonneg (by linarith) hf0)
      linarith
  · obtain ⟨hc, _⟩ := animate_snap s hd
    refine ⟨?_, ?_, ?_, ?_, ?_⟩
    · rw [animate_maxScroll]; exact h1
    · rw [animate_targetY]; exact h2
    · rw [animate_targetY, animate_maxScroll]; exact h3
    · rw [hc]; exact h2
    · rw [hc, animate_maxScroll]; exact h3

lemma Inv_applyInertia (s : ScrollState) (h : Inv s) : Inv (applyInertia s) := by
  obtain ⟨h1, h2, h3, h4, h5⟩ := h
  refine ⟨?_, ?_, ?_, ?_, ?_⟩
  · rw [applyInertia_maxScroll]; exact h1
  · rw [applyInertia_targetY]; exact clamp_nonneg _ _
  · rw [applyInertia_targetY, applyInertia_maxScroll]; exact clamp_le_max _ _ h1
  · rw [applyInertia_currentY]; exact h4
  · rw [applyInertia_currentY, applyInertia_maxScroll]; exact h5

lemma step_preserves_Inv (e : Event) (s : ScrollState)
    (hf0 : 0 ≤ s.config.smoothFactor) (hf1 : s.config.smoothFactor ≤ 1)
    (h : Inv s) : Inv (step e s) := by
  obtain ⟨h1, h2, h3, h4, h5⟩ := h
  cases e with
  | wheel d =>
      simp only [step, onWheel, Inv, startAnimation_maxScroll, startAnimation_targetY,
        startAnimation_currentY]
      exact ⟨h1, clamp_nonneg _ _, clamp_le_max _ _ h1, h4, h5⟩
  | touchStart y t =>
      simp only [step, onTouchStart, Inv]
      exact ⟨h1, h2, h3, h4, h5⟩
  | touchMove y t =>
      simp only [step, onTouchMove]
      split_ifs with hc hdt
      · simp only [Inv, startAnimation_maxScroll, startAnimation_targetY,
          startAnimation_currentY]
        exact ⟨h1, clamp_nonneg _ _, clamp_le_max _ _ h1, h4, h5⟩
      · simp only [Inv, startAnimation_maxScroll, startAnimation_targetY,
          startAnimation_currentY]
        exact ⟨h1, clamp_nonneg _ _, clamp_le_max _ _ h1, h4, h5⟩
      · exact ⟨h1, h2, h3, h4, h5⟩
  | touchEnd =>
      simp only [step, onTouchEnd]
      split_ifs with hc <;> exact ⟨h1, h2, h3, h4, h5⟩
  | keydown ih k sh ti =>
      simp only [step, onKeyDown]
      by_cases hti : ti = true
      · rw [if_pos hti]
        exact ⟨h1, h2, h3, h4, h5⟩
      · rw [if_neg hti]
        cases k with
        | arrowDown =>
            simp only [Inv, startAnimation_maxScroll, startAnimation_targetY,
              startAnimation_currentY]
            exact ⟨h1, clamp_nonneg _ _, clamp_le_max _ _ h1, h4, h5⟩
        | arrowUp =>
            simp only [Inv, startAnimation_maxScroll, startAnimation_targetY,
              startAnimation_currentY]
            exact ⟨h1, clamp_nonneg _ _, clamp_le_max _ _ h1, h4, h5⟩
        | pageDown =>
            simp only [Inv, startAnimation_maxScroll, startAnimation_targetY,
              startAnimation_currentY]
            exact ⟨h1, clamp_nonneg _ _, clamp_le_max _ _ h1, h4, h5⟩
        | pageUp =>
            simp only [Inv, startAnimation_maxScroll, startAnimation_targetY,
              startAnimation_currentY]
            exact ⟨h1, clamp_nonneg _ _, clamp_le_max _ _ h1, h4, h5⟩
        | home =>
            simp only [Inv, startAnimation_maxScroll, startAnimation_targetY,
              startAnimation_currentY]
            exact ⟨h1, le_refl 0, h1, h4, h5⟩
        | keyEnd =>
            simp only [Inv, startAnimation_maxScroll, startAnimation_targetY,
              startAnimation_currentY]
            exact ⟨h1, h1, le_refl _, h4, h5⟩
        | space =>
            simp only [Inv, startAnimation_maxScroll, startAnimation_targetY,
              startAnimation_currentY]
            exact ⟨h1, clamp_nonneg _ _, clamp_le_max _ _ h1, h4, h5⟩
        | other => exact ⟨h1, h2, h3, h4, h5⟩
  | apiScrollTo y sm =>
      simp only [step, scrollToAPI]
      split_ifs
      · simp only [Inv, startAnimation_maxScroll, startAnimation_targetY,
          startAnimation_currentY]
        exact ⟨h1, clamp_nonneg _ _, clamp_le_max _ _ h1, h4, h5⟩
      · simp only [Inv, dispatchScrollEvent]
        exact ⟨h1, clamp_nonneg _ _, clamp_le_max _ _ h1, clamp_nonneg _ _,
          clamp_le_max _ _ h1⟩
  | apiScrollBy d sm =>
      simp only [step, scrollByAPI]
      split_ifs
      · simp only [Inv, startAnimation_maxScroll, startAnimation_targetY,
          startAnimation_currentY]
        exact ⟨h1, clamp_nonneg _ _, clamp_le_max _ _ h1, h4, h5⟩
      · simp only [Inv, dispatchScrollEvent]
        exact ⟨h1, clamp_nonneg _ _, clamp_le_max _ _ h1, clamp_nonneg _ _,
          clamp_le_max _ _ h1⟩
  | winScrollTo top y b =>
      simp only [step, windowScrollToOpts]
      split_ifs
      · simp only [Inv, startAnimation_maxScroll, startAnimation_targetY,
          startAnimation_currentY]
        exact ⟨h1, clamp_nonneg _ _, clamp_le_max _ _ h1, h4, h5⟩
      · simp only [Inv, dispatchScrollEvent]
        exact ⟨h1, clamp_nonneg _ _, clamp_le_max _ _ h1, clamp_nonneg _ _,
          clamp_le_max _ _ h1⟩
  | winScrollToNum y =>
      simp only [step, windowScrollToNum, Inv, startAnimation_maxScroll,
        startAnimation_targetY, startAnimation_currentY]
      exact ⟨h1, clamp_nonneg _ _, clamp_le_max _ _ h1, h4, h5⟩
  | winScrollBy top y b =>
      simp only [step, windowScrollByOpts]
      split_ifs
      · simp only [Inv, startAnimation_maxScroll, startAnimation_targetY,
          startAnimation_currentY]
        exact ⟨h1, clamp_nonneg _ _, clamp_le_max _ _ h1, h4, h5⟩
      · simp only [Inv, dispatchScrollEvent]
        exact ⟨h1, clamp_nonneg _ _, clamp_le_max _ _ h1, clamp_nonneg _ _,
          clamp_le_max _ _ h1⟩
  | winScrollByNum y =>
      simp only [step, windowScrollByNum, Inv, startAnimation_maxScroll,
        startAnimation_targetY, startAnimation_currentY]
      exact ⟨h1, clamp_nonneg _ _, clamp_le_max _ _ h1, h4, h5⟩
  | boundsUpdate sh ih =>
      simp only [step, updateBounds, Inv]
      exact ⟨le_max_left _ _, clamp_nonneg _ _, clamp_le_max _ _ (le_max_left _ _),
        clamp_nonneg _ _, clamp_le_max _ _ (le_max_left _ _)⟩
  | animationFrame =>
      simp only [step, fireAnimationFrame]
      split_ifs
      · exact Inv_animate s hf0 hf1 ⟨h1, h2, h3, h4, h5⟩
      · exact ⟨h1, h2, h3, h4, h5⟩
  | inertiaFrame =>
      simp only [step, fireInertiaFrame]
      split_ifs
      · exact Inv_applyInertia s ⟨h1, h2, h3, h4, h5⟩
      · exact ⟨h1, h2, h3, h4, h5⟩

/-! Claim theorems. -/

/-- C9: for every rational v and every maxScroll ≥ 0, clamping into
[0, maxScroll] twice equals clamping once, where
clamp(v, lo, hi) = max(lo, min(hi, v)). -/
theorem claim9_clamp_idempotent (v m : ℚ) (h : 0 ≤ m) :
    clamp (clamp v 0 m) 0 m = clamp v 0 m :=
  clamp_of_mem _ _ _ (clamp_nonneg v m) (clamp_le_max v m h)

/-- Witness for C9 at v = 1500, maxScroll = 1000. -/
theorem claim9_clamp_idempotent_witness :
    (0:ℚ) ≤ 1000 ∧ clamp (clamp 1500 0 1000) 0 1000 = clamp 1500 0 1000 :=
  ⟨by norm_num, claim9_clamp_idempotent 1500 1000 (by norm_num)⟩

/-- C2: each firing of the animation step computes diff = |target -
current|; if diff > 0.5 it sets current = lerp(current, target,
smoothFactor) = current + (target - current) * smoothFactor and stays
Running (a frame remains scheduled), otherwise it snaps current = target
and transitions to Idle (no frame rescheduled); with smoothFactor =
0.08, target = 100 and current = 0, one step yields current = 8. -/
theorem claim2_animation_step :
    (∀ s : ScrollState, 1/2 < |s.targetY - s.currentY| →
        (animate s).currentY = lerp s.currentY s.targetY s.config.smoothFactor
          ∧ (animate s).rafId = true)
    ∧ (∀ s : ScrollState, |s.targetY - s.currentY| ≤ 1/2 →
        (animate s).currentY = s.targetY ∧ (animate s).rafId = false)
    ∧ (∀ a b f : ℚ, lerp a b f = a + (b - a) * f)
    ∧ (animate { initState 1000 with targetY := 100 }).currentY = 8 := by
  refine ⟨fun s h => animate_run s h, fun s h => animate_snap s (not_lt.2 h),
    fun a b f => rfl, ?_⟩
  have h : (1:ℚ)/2 < |({ initState 1000 with targetY := 100 } : ScrollState).targetY
      - ({ initState 1000 with targetY := 100 } : ScrollState).currentY| := by
    norm_num [initState]
  rw [(animate_run _ h).1]
  norm_num [initState, defaultConfig, lerp]

/-- Witness for C2: both branch hypotheses discharged at concrete
states (target 100 / current 0 for the running branch, the idle initial
state for the snap branch). -/
theorem claim2_animation_step_witness :
    ((1:ℚ)/2 < |({ initState 1000 with targetY := 100 } : ScrollState).targetY
        - ({ initState 1000 with targetY := 100 } : ScrollState).currentY|
      ∧ (animate { initState 1000 with targetY := 100 }).rafId = true)
    ∧ (|(initState 1000).targetY - (initState 1000).currentY| ≤ 1/2
      ∧ (animate (initState 1000)).currentY = (initState 1000).targetY) := by
  constructor
  · constructor
    · norm_num [initState]
    · exact (claim2_animation_step.1 { initState 1000 with targetY := 100 }
        (by norm_num [initState])).2
  · constructor
    · norm_num [initState]
    · exact (claim2_animation_step.2.1 (initState 1000)
        (by norm_num [initState])).1

/-- C7: for every handled keydown, PageDown/PageUp and Space (with
Shift reversing direction) move the target by 80 percent of the
viewport height clamped into [0, maxScroll], Home sets target = 0, End
sets target = maxScroll, and the native action is suppressed exactly
when a recognised key is handled: unrecognised keys (and, in v2, keys
arriving while focus is in a text input) leave the state unchanged and
are not suppressed.  Stated for the v2 handler `onKeyDown` and the v1
handler `onKeyDownV1`. -/
theorem claim7_keyboard_mapping (ih : ℚ) (sh : Bool) (s : ScrollState) :
    (onKeyDown ih .pageDown sh false s
      = (startAnimation { s with targetY := clamp (s.targetY + ih * (4/5)) 0 s.maxScroll }, true))
    ∧ (onKeyDown ih .pageUp sh false s
      = (startAnimation { s with targetY := clamp (s.targetY - ih * (4/5)) 0 s.maxScroll }, true))
    ∧ (onKeyDown ih .space false false s
      = (startAnimation { s with targetY := clamp (s.targetY + ih * (4/5)) 0 s.maxScroll }, true))
    ∧ (onKeyDown ih .space true false s
      = (startAnimation { s with targetY := clamp (s.targetY - ih * (4/5)) 0 s.maxScroll }, true))
    ∧ (onKeyDown ih .home sh false s = (startAnimation { s with targetY := 0 }, true))
    ∧ (onKeyDown ih .keyEnd sh false s = (startAnimation { s with targetY := s.maxScroll }, true))
    ∧ (onKeyDown ih .other sh false s = (s, false))
    ∧ (∀ k, onKeyDown ih k sh true s = (s, false))
    ∧ (onKeyDownV1 ih .pageDown sh s
      = (startAnimation { s with targetY := clamp (s.targetY + ih * (4/5)) 0 s.maxScroll }, true))
    ∧ (onKeyDownV1 ih .pageUp sh s
      = (startAnimation { s with targetY := clamp (s.targetY - ih * (4/5)) 0 s.maxScroll }, true))
    ∧ (onKeyDownV1 ih .space false s
      = (startAnimation { s with targetY := clamp (s.targetY + ih * (4/5)) 0 s.maxScroll }, true))
    ∧ (onKeyDownV1 ih .space true s
      = (startAnimation { s with targetY := clamp (s.targetY - ih * (4/5)) 0 s.maxScroll }, true))
    ∧ (onKeyDownV1 ih .home sh s = (startAnimation { s with targetY := 0 }, true))
    ∧ (onKeyDownV1 ih .keyEnd sh s = (startAnimation { s with targetY := s.maxScroll }, true))
    ∧ (onKeyDownV1 ih .other sh s = (s, false)) := by
  refine ⟨rfl, rfl, rfl, ?_, rfl, rfl, rfl, fun k => rfl, rfl, rfl, rfl, ?_, rfl, rfl, rfl⟩
  · simp [onKeyDown, sub_eq_add_neg]
  · simp [onKeyDownV1, sub_eq_add_neg]

/-- C8: setConfig overwrites exactly the supplied configuration fields,
every unspecified field keeps its previous value, and the scroll state
(target, current, maxScroll) is unchanged. -/
theorem claim8_setConfig_merge (p : ConfigPatch) (s : ScrollState) :
    ((∀ x, p.smoothFactor = some x → (setConfig p s).config.smoothFactor = x)
      ∧ (p.smoothFactor = none →
          (setConfig p s).config.smoothFactor = s.config.smoothFactor))
    ∧ ((∀ x, p.touchSensitivity = some x → (setConfig p s).config.touchSensitivity = x)
      ∧ (p.touchSensitivity = none →
          (setConfig p s).config.touchSensitivity = s.config.touchSensitivity))
    ∧ ((∀ x, p.inertiaMultiplier = some x → (setConfig p s).config.inertiaMultiplier = x)
      ∧ (p.inertiaMultiplier = none →
          (setConfig p s).config.inertiaMultiplier = s.config.inertiaMultiplier))
    ∧ ((∀ x, p.inertiaDecay = some x → (setConfig p s).config.inertiaDecay = x)
      ∧ (p.inertiaDecay = none →
          (setConfig p s).config.inertiaDecay = s.config.inertiaDecay))
    ∧ (setConfig p s).targetY = s.targetY
    ∧ (setConfig p s).currentY = s.currentY
    ∧ (setConfig p s).maxScroll = s.maxScroll := by
  refine ⟨⟨fun x hx => ?_, fun hx => ?_⟩, ⟨fun x hx => ?_, fun hx => ?_⟩,
    ⟨fun x hx => ?_, fun hx => ?_⟩, ⟨fun x hx => ?_, fun hx => ?_⟩, rfl, rfl, rfl⟩
  all_goals simp [setConfig, objectAssign, hx]

/-- Witness for C8: a patch supplying only smoothFactor = 0.2 applied to
the initial state changes smoothFactor and keeps inertiaDecay and the
scroll state. -/
theorem claim8_setConfig_merge_witness :
    (setConfig ⟨some (1/5), none, none, none⟩ (initState 1000)).config.smoothFactor = 1/5
    ∧ (setConfig ⟨some (1/5), none, none, none⟩ (initState 1000)).config.inertiaDecay
        = (initState 1000).config.inertiaDecay
    ∧ (setConfig ⟨some (1/5), none, none, none⟩ (initState 1000)).targetY
        = (initState 1000).targetY := by
  refine ⟨?_, ?_, ?_⟩
  · exact (claim8_setConfig_merge ⟨some (1/5), none, none, none⟩ (initState 1000)).1.1
      (1/5) rfl
  · exact (claim8_setConfig_merge ⟨some (1/5), none, none, none⟩ (initState 1000)).2.2.2.1.2
      rfl
  · exact (claim8_setConfig_merge ⟨some (1/5), none, none, none⟩ (initState 1000)).2.2.2.2.1

/-- C3 counterexample: in the v1 variant (smoothscrolling.js), the
instant request SmoothScroll.scrollTo(50, false) on the idle initial
state with maxScroll = 1000 sets current = target = 50 but fires no
scroll notification (the notification counter stays 0), refuting the
claim that every non-smooth request immediately fires the Compatibility
Shim notification. -/
theorem claim3_counterexample :
    (scrollToV1 50 false (initState 1000)).currentY = 50
    ∧ (scrollToV1 50 false (initState 1000)).notifications = 0 := by
  constructor
  · norm_num [scrollToV1, initState, clamp, min_def, max_def]
  · rfl

/-- C3 (amended): in the v2 variant every non-smooth scroll request
(SmoothScroll.scrollTo / scrollBy with smooth = false and the
overridden window.scrollTo / scrollBy with behavior other than
"smooth") sets current = target directly and immediately fires exactly
one Compatibility Shim scroll notification; in the v1 variant the
instant paths also set current = target directly but fire no
notification (there a notification can only come from the animation
loop). -/
theorem claim3_instant_notification (y d : ℚ) (top yo : Option ℚ) (s : ScrollState) :
    ((scrollToAPI y false s).currentY = (scrollToAPI y false s).targetY
      ∧ (scrollToAPI y false s).notifications = s.notifications + 1)
    ∧ ((scrollByAPI d false s).currentY = (scrollByAPI d false s).targetY
      ∧ (scrollByAPI d false s).notifications = s.notifications + 1)
    ∧ ((windowScrollToOpts top yo false s).currentY
          = (windowScrollToOpts top yo false s).targetY
      ∧ (windowScrollToOpts top yo false s).notifications = s.notifications + 1)
    ∧ ((windowScrollByOpts top yo false s).currentY
          = (windowScrollByOpts top yo false s).targetY
      ∧ (windowScrollByOpts top yo false s).notifications = s.notifications + 1)
    ∧ ((scrollToV1 y false s).currentY = (scrollToV1 y false s).targetY
      ∧ (scrollToV1 y false s).notifications = s.notifications)
    ∧ ((windowScrollToOptsV1 top yo false s).currentY
          = (windowScrollToOptsV1 top yo false s).targetY
      ∧ (windowScrollToOptsV1 top yo false s).notifications = s.notifications) :=
  ⟨⟨rfl, rfl⟩, ⟨rfl, rfl⟩, ⟨rfl, rfl⟩, ⟨rfl, rfl⟩, ⟨rfl, rfl⟩, ⟨rfl, rfl⟩⟩

/-- C1: every defined entry point (wheel, touch, keyboard, the
programmatic scrollTo/scrollBy and overridden window entry points,
bounds recomputation, and the two kinds of scheduled frames) preserves
the bounds invariant maxScroll ≥ 0, 0 ≤ target ≤ maxScroll and
0 ≤ current ≤ maxScroll (for any smoothFactor in [0,1], which includes
the shipped 0.08), so the invariant holds whenever a mutation settles;
and with maxScroll = 1000, scrollTo(1500) settles with current = 1000
while scrollTo(-50) settles with current = 0. -/
theorem claim1_bounds_invariant :
    (∀ (e : Event) (s : ScrollState), 0 ≤ s.config.smoothFactor →
        s.config.smoothFactor ≤ 1 → Inv s → Inv (step e s))
    ∧ (∃ n, (animateN n (scrollToAPI 1500 true (initState 1000))).rafId = false
        ∧ (animateN n (scrollToAPI 1500 true (initState 1000))).currentY = 1000)
    ∧ (∃ n, (animateN n (scrollToAPI (-50) true (initState 1000))).rafId = false
        ∧ (animateN n (scrollToAPI (-50) true (initState 1000))).currentY = 0) := by
  refine ⟨fun e s hf0 hf1 h => step_preserves_Inv e s hf0 hf1 h, ?_, ?_⟩
  · have ht : (scrollToAPI 1500 true (initState 1000)).targetY = 1000 := by
      norm_num [scrollToAPI, initState, clamp, min_def, max_def]
    have hc : (scrollToAPI 1500 true (initState 1000)).config.smoothFactor = 2/25 := by
      norm_num [scrollToAPI, initState, defaultConfig]
    obtain ⟨n, h1, h2⟩ := animate_settles (scrollToAPI 1500 true (initState 1000))
      (by rw [hc]; norm_num) (by rw [hc]; norm_num)
    exact ⟨n, h1, by rw [h2, ht]⟩
  · have ht : (scrollToAPI (-50) true (initState 1000)).targetY = 0 := by
      norm_num [scrollToAPI, initState, clamp, min_def, max_def]
    have hc : (scrollToAPI (-50) true (initState 1000)).config.smoothFactor = 2/25 := by
      norm_num [scrollToAPI, initState, defaultConfig]
    obtain ⟨n, h1, h2⟩ := animate_settles (scrollToAPI (-50) true (initState 1000))
      (by rw [hc]; norm_num) (by rw [hc]; norm_num)
    exact ⟨n, h1, by rw [h2, ht]⟩

/-- Witness for C1: the preservation part applied to a wheel event of
delta 100 on the idle initial state with maxScroll = 1000. -/
theorem claim1_bounds_invariant_witness :
    (0 ≤ (initState 1000).config.smoothFactor
      ∧ (initState 1000).config.smoothFactor ≤ 1 ∧ Inv (initState 1000))
    ∧ Inv (step (.wheel 100) (initState 1000)) := by
  refine ⟨⟨?_, ?_, ?_⟩, ?_⟩
  · norm_num [initState, defaultConfig]
  · norm_num [initState, defaultConfig]
  · exact ⟨by norm_num [initState], by norm_num [initState], by norm_num [initState],
      by norm_num [initState], by norm_num [initState]⟩
  · exact claim1_bounds_invariant.1 (.wheel 100) (initState 1000)
      (by norm_num [initState, defaultConfig]) (by norm_num [initState, defaultConfig])
      ⟨by norm_num [initState], by norm_num [initState], by norm_num [initState],
        by norm_num [initState], by norm_num [initState]⟩

/-- C5 counterexample: a touch gesture (touch-start at y = 500, a
touch-move to y = 490 after 16ms, then release) on the idle initial
state with maxScroll = 1000 reaches a state with two outstanding frame
callbacks at once: the animation-loop frame scheduled by the move and
the inertia callback scheduled by the release.  This refutes the claim
that at most one animation frame callback is ever outstanding. -/
theorem claim5_counterexample :
    outstanding (step .touchEnd (step (.touchMove 490 16)
      (step (.touchStart 500 0) (initState 1000)))) = 2 := by
  norm_num [step, outstanding, onTouchEnd, onTouchMove, onTouchStart, startAnimation,
    initState, defaultConfig, clamp, min_def, max_def, abs]

/-- C5 (amended): requesting the animation loop while a frame handle is
pending is a no-op (startAnimation checks rafId), so at most one
animation-loop callback is ever outstanding; but applyInertia schedules
its own callbacks directly through requestAnimationFrame, bypassing the
rafId handle — it reschedules itself whenever its decayed velocity
still exceeds 0.5 in magnitude, regardless of the pending animation
frame — so inertia callbacks are outstanding concurrently with the
animation-loop callback: after a flick release (touch-start at y = 300,
move to y = 280 at t = 16, release) both an animation-loop callback and
an inertia callback are pending at once. -/
theorem claim5_single_animation_handle :
    (∀ s : ScrollState, s.rafId = true → startAnimation s = s)
    ∧ (∀ s : ScrollState, 1/2 < |s.inertiaVelocity * s.config.inertiaDecay| →
        (applyInertia s).inertiaActive = true)
    ∧ ((step .touchEnd (step (.touchMove 280 16)
          (step (.touchStart 300 0) (initState 1000)))).animFramePending = true
      ∧ (step .touchEnd (step (.touchMove 280 16)
          (step (.touchStart 300 0) (initState 1000)))).inertiaActive = true) := by
  refine ⟨?_, ?_, ?_⟩
  · intro s h
    unfold startAnimation
    rw [if_pos h]
  · intro s h
    rw [applyInertia_inertiaActive, if_pos h]
  · constructor <;>
      norm_num [step, onTouchEnd, onTouchMove, onTouchStart, startAnimation, initState,
        defaultConfig, clamp, min_def, max_def, abs]

/-- Witness for C5: the no-op part applied to a state whose handle is
pending, and the self-rescheduling part at working velocity 40 with the
default decay. -/
theorem claim5_single_animation_handle_witness :
    ({ initState 1000 with rafId := true } : ScrollState).rafId = true
    ∧ startAnimation { initState 1000 with rafId := true }
        = { initState 1000 with rafId := true }
    ∧ (1:ℚ)/2 < |({ initState 1000 with inertiaVelocity := 40 } : ScrollState).inertiaVelocity
        * ({ initState 1000 with inertiaVelocity := 40 } : ScrollState).config.inertiaDecay|
    ∧ (applyInertia { initState 1000 with inertiaVelocity := 40 }).inertiaActive = true := by
  refine ⟨rfl, claim5_single_animation_handle.1 _ rfl, ?_, ?_⟩
  · norm_num [initState, defaultConfig, abs]
  · exact claim5_single_animation_handle.2.1 _ (by norm_num [initState, defaultConfig, abs])

lemma fireInertiaFrame_config (s : ScrollState) :
    (fireInertiaFrame s).config = s.config := by
  unfold fireInertiaFrame
  split_ifs
  · rw [applyInertia_config]
  · rfl

lemma inertiaRunN_config (n : ℕ) (s : ScrollState) :
    (inertiaRunN n s).config = s.config := by
  induction n with
  | zero => rfl
  | succ n ih => rw [inertiaRunN, fireInertiaFrame_config, ih]

lemma fireInertiaFrame_inactive (s : ScrollState) (h : s.inertiaActive = false) :
    fireInertiaFrame s = s := by
  unfold fireInertiaFrame
  rw [h]
  simp

lemma inertiaRunN_bound (n : ℕ) (s : ScrollState) (hd0 : 0 ≤ s.config.inertiaDecay) :
    (inertiaRunN n s).inertiaActive = false
      ∨ |(inertiaRunN n s).inertiaVelocity|
          ≤ |s.inertiaVelocity| * s.config.inertiaDecay ^ n := by
  induction n with
  | zero => exact Or.inr (by simp [inertiaRunN])
  | succ n ih =>
      cases hb : (inertiaRunN n s).inertiaActive with
      | false =>
          left
          rw [inertiaRunN, fireInertiaFrame_inactive _ hb]
          exact hb
      | true =>
          rcases ih with h | h
          · rw [h] at hb
            exact absurd hb (by simp)
          · right
            rw [inertiaRunN]
            unfold fireInertiaFrame
            rw [if_pos hb, applyInertia_inertiaVelocity, inertiaRunN_config, abs_mul,
              abs_of_nonneg hd0, pow_succ, ← mul_assoc]
            exact mul_le_mul_of_nonneg_right h hd0

lemma inertiaRun_terminates (s : ScrollState) (hd0 : 0 ≤ s.config.inertiaDecay)
    (hd1 : s.config.inertiaDecay < 1) :
    ∃ n, (inertiaRunN n s).inertiaActive = false := by
  obtain ⟨n, hn⟩ := exists_pow_lt_of_lt_one
    (show (0:ℚ) < (1/2) / (|s.inertiaVelocity| + 1) by positivity) hd1
  rcases inertiaRunN_bound n s hd0 with h | h
  · exact ⟨n, h⟩
  · have hD : (0:ℚ) ≤ |s.inertiaVelocity| := abs_nonneg _
    have hD1 : (0:ℚ) < |s.inertiaVelocity| + 1 := by linarith
    have hsmall : |(inertiaRunN n s).inertiaVelocity| ≤ 1/2 := by
      have h1 : |s.inertiaVelocity| * s.config.inertiaDecay ^ n
          ≤ |s.inertiaVelocity| * ((1/2) / (|s.inertiaVelocity| + 1)) :=
        mul_le_mul_of_nonneg_left hn.le hD
      have h2 : |s.inertiaVelocity| * ((1/2) / (|s.inertiaVelocity| + 1)) ≤ 1/2 := by
        rw [← mul_div_assoc, div_le_iff₀ hD1]
        linarith
      linarith
    cases hb : (inertiaRunN n s).inertiaActive with
    | false =>
        exact ⟨n, hb⟩
    | true =>
        refine ⟨n + 1, ?_⟩
        rw [inertiaRunN]
        unfold fireInertiaFrame
        rw [if_pos hb, applyInertia_inertiaActive, inertiaRunN_config]
        have hle : |(inertiaRunN n s).inertiaVelocity * s.config.inertiaDecay| ≤ 1/2 := by
          rw [abs_mul, abs_of_nonneg hd0]
          calc |(inertiaRunN n s).inertiaVelocity| * s.config.inertiaDecay
              ≤ (1/2) * 1 := mul_le_mul hsmall hd1.le hd0 (by norm_num)
            _ = 1/2 := by norm_num
        rw [if_neg (not_lt.2 hle)]

/-- C6: on touch release, if the recorded velocity has magnitude at most
0.2 no inertia frame is scheduled (only the touch-down flag is
cleared); if it exceeds 0.2 a run is scheduled whose every step
multiplies the working velocity by inertiaDecay and adds it to the
target (clamped into [0, maxScroll]), the run reschedules itself
exactly while the decayed velocity exceeds 0.5 in magnitude, each step
of a live run strictly decreases the velocity magnitude when
inertiaDecay lies in (0,1), and the run terminates: some finite number
of frames later no inertia callback is outstanding. -/
theorem claim6_inertia_run (s : ScrollState) :
    (|s.touchVelocity| ≤ 1/5 → onTouchEnd s = { s with isTouchDown := false })
    ∧ (1/5 < |s.touchVelocity| →
        onTouchEnd s = { s with isTouchDown := false, inertiaActive := true
                                inertiaVelocity := s.touchVelocity * s.config.inertiaMultiplier })
    ∧ ((applyInertia s).inertiaVelocity = s.inertiaVelocity * s.config.inertiaDecay
      ∧ (applyInertia s).targetY
          = clamp (s.targetY + s.inertiaVelocity * s.config.inertiaDecay) 0 s.maxScroll
      ∧ ((applyInertia s).inertiaActive = true
          ↔ 1/2 < |s.inertiaVelocity * s.config.inertiaDecay|))
    ∧ (0 < s.config.inertiaDecay → s.config.inertiaDecay < 1 → s.inertiaVelocity ≠ 0 →
        |(applyInertia s).inertiaVelocity| < |s.inertiaVelocity|)
    ∧ (0 ≤ s.config.inertiaDecay → s.config.inertiaDecay < 1 →
        ∃ n, (inertiaRunN n s).inertiaActive = false) := by
  refine ⟨?_, ?_, ⟨applyInertia_inertiaVelocity s, applyInertia_targetY s, ?_⟩, ?_, ?_⟩
  · intro h
    unfold onTouchEnd
    rw [if_neg (not_lt.2 h)]
  · intro h
    unfold onTouchEnd
    rw [if_pos h]
  · rw [applyInertia_inertiaActive]
    split_ifs with hc
    · simpa using hc
    · simpa using hc
  · intro hd0 hd1 hv
    rw [applyInertia_inertiaVelocity, abs_mul, abs_of_pos hd0]
    have hva : 0 < |s.inertiaVelocity| := abs_pos.2 hv
    calc |s.inertiaVelocity| * s.config.inertiaDecay
        < |s.inertiaVelocity| * 1 := by
          exact mul_lt_mul_of_pos_left hd1 hva
      _ = |s.inertiaVelocity| := mul_one _
  · exact fun hd0 hd1 => inertiaRun_terminates s hd0 hd1

/-- Witness for C6: all branch hypotheses discharged at concrete states
(zero recorded velocity for the no-run branch, velocity 10 for the run
branch, working velocity 40 with the default decay 0.85 for the strict
decrease and termination parts). -/
theorem claim6_inertia_run_witness :
    (onTouchEnd (initState 1000) = { initState 1000 with isTouchDown := false })
    ∧ (onTouchEnd { initState 1000 with touchVelocity := 10 }
        = { initState 1000 with touchVelocity := 10, isTouchDown := false
                                inertiaActive := true, inertiaVelocity := 10 * (4:ℚ) })
    ∧ |(applyInertia { initState 1000 with inertiaVelocity := 40 }).inertiaVelocity|
        < |({ initState 1000 with inertiaVelocity := 40 } : ScrollState).inertiaVelocity|
    ∧ (∃ n, (inertiaRunN n { initState 1000 with inertiaVelocity := 40 }).inertiaActive
        = false) := by
  refine ⟨?_, ?_, ?_, ?_⟩
  · exact (claim6_inertia_run (initState 1000)).1 (by norm_num [initState])
  · have h := (claim6_inertia_run { initState 1000 with touchVelocity := 10 }).2.1
      (by norm_num [initState])
    rw [h]
    norm_num [initState, defaultConfig]
  · exact (claim6_inertia_run { initState 1000 with inertiaVelocity := 40 }).2.2.2.1
      (by norm_num [initState, defaultConfig]) (by norm_num [initState, defaultConfig])
      (by norm_num [initState])
  · exact (claim6_inertia_run { initState 1000 with inertiaVelocity := 40 }).2.2.2.2
      (by norm_num [initState, defaultConfig]) (by norm_num [initState, defaultConfig])

/-- State reached in the v2 model by: initialise with maxScroll = 1000,
touch-start at y = 500 (t = 0), touch-move to y = 490 (t = 16,
recording velocity 10 and moving the target to 3), release (scheduling
an inertia run with working velocity 40), then call destroy() while
that run is in flight. -/
def teardownState : ScrollState :=
  destroy (onTouchEnd (onTouchMove 490 16 (onTouchStart 500 0 (initState 1000))))

/-- C4: evaluation of the v2 teardown at a failing input.  destroy()
does restore window.scrollTo, detach the listeners and cancel the
pending animation-loop callback (leaving the `rafId` variable stale and
truthy), but the window.scrollBy override is still installed afterwards
(destroy never restores it), and the in-flight inertia callback is
still outstanding: when it fires after teardown it mutates the target
from 3 to 37 and reschedules itself, so frames keep being scheduled
after destroy() — contradicting the claim that after destroy() every
overridden entry point is restored and no further frame is scheduled.
(The startAnimation call inside the post-destroy inertia step is a
no-op on the stale truthy handle, so no animation-loop frame is
scheduled and the loop stays dead.) -/
theorem claim4_teardown_leaks :
    teardownState.scrollToOverridden = false
    ∧ teardownState.listenersAttached = false
    ∧ teardownState.animFramePending = false
    ∧ teardownState.rafId = true
    ∧ teardownState.scrollByOverridden = true
    ∧ teardownState.inertiaActive = true
    ∧ (fireInertiaFrame teardownState).inertiaActive = true
    ∧ (fireInertiaFrame teardownState).targetY = 37
    ∧ (fireInertiaFrame teardownState).animFramePending = false := by
  have hT : teardownState =
      { targetY := 3, currentY := 0, maxScroll := 1000, rafId := true
        animFramePending := false, isAnimating := false, transform := 0
        lastDispatchY := 0, notifications := 0
        isTouchDown := false, lastTouchY := 490, touchVelocity := 10, lastTouchTime := 16
        inertiaActive := true, inertiaVelocity := 40, listenersAttached := false
        scrollToOverridden := false, scrollByOverridden := true, containerInDom := false
        config := defaultConfig } := by
    norm_num [teardownState, destroy, onTouchEnd, onTouchMove, onTouchStart, startAnimation,
      initState, defaultConfig, clamp, min_def, max_def, abs]
  rw [hT]
  refine ⟨rfl, rfl, rfl, rfl, rfl, rfl, ?_, ?_, ?_⟩
  · norm_num [fireInertiaFrame, applyInertia, startAnimation, defaultConfig, clamp,
      min_def, max_def, abs]
  · norm_num [fireInertiaFrame, applyInertia, startAnimation, defaultConfig, clamp,
      min_def, max_def, abs]
  · norm_num [fireInertiaFrame, applyInertia, startAnimation, defaultConfig, clamp,
      min_def, max_def, abs]

/-- C10: on touch release the inertia working velocity is initialised
to touchVelocity * inertiaMultiplier, not the raw recorded velocity:
the 0.2 start threshold is tested against the unscaled touchVelocity,
the 0.5 stop threshold is tested against the scaled and already-decayed
working velocity, and the first target increment applied is
touchVelocity * inertiaMultiplier * inertiaDecay; with the default
configuration (inertiaMultiplier 4, inertiaDecay 0.85) and recorded
velocity 0.21 the first increment is 0.714. -/
theorem claim10_inertia_scaling (s : ScrollState) :
    (|s.touchVelocity| ≤ 1/5 → onTouchEnd s = { s with isTouchDown := false })
    ∧ (1/5 < |s.touchVelocity| →
        (onTouchEnd s).inertiaVelocity = s.touchVelocity * s.config.inertiaMultiplier
        ∧ (onTouchEnd s).inertiaActive = true
        ∧ (applyInertia (onTouchEnd s)).inertiaVelocity
            = s.touchVelocity * s.config.inertiaMultiplier * s.config.inertiaDecay
        ∧ (applyInertia (onTouchEnd s)).targetY
            = clamp (s.targetY + s.touchVelocity * s.config.inertiaMultiplier
                * s.config.inertiaDecay) 0 s.maxScroll
        ∧ ((applyInertia (onTouchEnd s)).inertiaActive = true
            ↔ 1/2 < |s.touchVelocity * s.config.inertiaMultiplier
                * s.config.inertiaDecay|))
    ∧ (applyInertia (onTouchEnd { initState 1000 with touchVelocity := 21/100 })).targetY
        = 357/500 := by
  refine ⟨?_, ?_, ?_⟩
  · intro h
    unfold onTouchEnd
    rw [if_neg (not_lt.2 h)]
  · intro h
    have he : onTouchEnd s
        = { s with isTouchDown := false, inertiaActive := true
                   inertiaVelocity := s.touchVelocity * s.config.inertiaMultiplier } := by
      unfold onTouchEnd
      rw [if_pos h]
    refine ⟨?_, ?_, ?_, ?_, ?_⟩
    · rw [he]
    · rw [he]
    · rw [he, applyInertia_inertiaVelocity]
    · rw [he, applyInertia_targetY]
    · rw [he, applyInertia_inertiaActive]
      split_ifs with hc
      · simpa using hc
      · simpa using hc
  · norm_num [initState, defaultConfig, onTouchEnd, applyInertia, startAnimation, clamp,
      min_def, max_def, abs]

/-- Witness for C10: the run branch at recorded velocity 0.21 (working
velocity 0.21 * 4 = 0.84) and the no-run branch at recorded velocity
0. -/
theorem claim10_inertia_scaling_witness :
    (1:ℚ)/5 < |({ initState 1000 with touchVelocity := 21/100 } : ScrollState).touchVelocity|
    ∧ (onTouchEnd { initState 1000 with touchVelocity := 21/100 }).inertiaVelocity = 21/25
    ∧ |(initState 1000).touchVelocity| ≤ 1/5
    ∧ onTouchEnd (initState 1000) = { initState 1000 with isTouchDown := false } := by
  refine ⟨by norm_num [initState, abs], ?_, by norm_num [initState], ?_⟩
  · have h := (claim10_inertia_scaling { initState 1000 with touchVelocity := 21/100 }).2.1
      (by norm_num [initState, abs])
    rw [h.1]
    norm_num [initState, defaultConfig]
  · exact (claim10_inertia_scaling (initState 1000)).1 (by norm_num [initState])

end SmoothScroll
